import Mathlib

/-!
# Verification of the bchat delivery / unread-tracking core

Shallow embedding of the realtime-chat client in `src/src/types.ts`
(the `App` component) together with proofs of the spec's testable
properties.

Conventions of the embedding:
* TypeScript optional fields (`receiver_id?`, `group_id?`, `sender?`)
  become `Option`; JavaScript truthiness tests on them (`msg.group_id ||
  msg.sender_id`) become `Option.getD` / `Option.isSome`.  Ids are
  database-generated UUIDs, hence never the empty string, so the
  falsy-empty-string corner of `||` does not arise.
* `created_at` is an ISO-8601 timestamp string in the source; its
  lexicographic order is chronological order, so we embed it as `Nat`.
* The unread-count map (a JS object `Record<string, number>`) becomes a
  partial map `String → Option Nat`: `none` is "never touched", `some 0`
  is "seen, zero", matching the object's absent-vs-zero distinction.
* Effects against the external Supabase collaborator (row insert, row
  lookup, feed event) are made explicit: the message store is a list in
  insertion order, a feed event is a `Message` argument, and fallible
  inserts are parametrised by their `Option` outcome.
-/

/-- Row of the `users` table (`interface User`, src/src/types.ts:1-5). -/
structure ChatUser where
  id : String
  username : String
  last_seen : Option String := none
deriving DecidableEq, Repr

/-- Row of the `messages` table (`interface Message`, src/src/types.ts:7-15).
`sender` is the denormalised join attached client-side. -/
structure Message where
  id : String
  sender_id : String
  receiver_id : Option String := none
  group_id : Option String := none
  content : String
  created_at : Nat
  sender : Option ChatUser := none
deriving DecidableEq, Repr

/-- The discriminant of `activeChat` (`{ type: 'user' | 'group', id: string }`,
src/src/types.ts:59). -/
inductive ChatType where
  | user
  | group
deriving DecidableEq, Repr

/-- The `activeChat` state value (src/src/types.ts:59). -/
structure Chat where
  type : ChatType
  id : String
deriving DecidableEq, Repr

/-- The `unreadCounts` state: `Record<string, number>` (src/src/types.ts:60),
as a partial map so that an absent key differs from a stored `0`. -/
def UnreadCounts : Type := String → Option Nat

/-- The everywhere-absent unread map (the `useState({})` initial value). -/
def emptyCounts : UnreadCounts := fun _ => none

/-- `const chatId = msg.group_id || msg.sender_id` (src/src/types.ts:92):
the conversation identifier a received message is filed under. -/
def derivedId (m : Message) : String :=
  m.group_id.getD m.sender_id

/-- `const isRelevant = msg.group_id || msg.receiver_id === currentUser.id`
(src/src/types.ts:98). -/
def isRelevant (u : ChatUser) (m : Message) : Bool :=
  m.group_id.isSome || m.receiver_id == some u.id

/-- `{...prev, [chatId]: (prev[chatId] || 0) + 1}` (src/src/types.ts:101-104). -/
def incrementCount (counts : UnreadCounts) (chatId : String) : UnreadCounts :=
  fun k => if k = chatId then some ((counts chatId).getD 0 + 1) else counts k

/-- The global message-subscription callback for unread indicators
(src/src/types.ts:85-105): ignore own messages, derive the conversation id,
no-op when that conversation is active, no-op when irrelevant, otherwise
increment. `activeChat?.id === chatId` is `false` when `activeChat` is null. -/
def onMessageObserved (currentUser : ChatUser) (activeChat : Option Chat)
    (counts : UnreadCounts) (msg : Message) : UnreadCounts :=
  if msg.sender_id = currentUser.id then counts
  else
    let chatId := derivedId msg
    if (activeChat.map Chat.id) = some chatId then counts
    else if isRelevant currentUser msg then incrementCount counts chatId
    else counts

/-- The activation effect (src/src/types.ts:65-72): when a chat becomes
active its stored unread count is set to `0`, creating the entry if absent. -/
def onConversationActivated (counts : UnreadCounts) (chatId : String) : UnreadCounts :=
  fun k => if k = chatId then some 0 else counts k

/-- Folding the global subscription callback over a sequence of feed events
(the feed serialises callbacks, section 5 of the spec). -/
def observeAll (u : ChatUser) (a : Option Chat) (counts : UnreadCounts)
    (msgs : List Message) : UnreadCounts :=
  msgs.foldl (onMessageObserved u a) counts

/-- JavaScript `String.prototype.trim`: strip whitespace from both ends.
Written with structural list recursion so that concrete inputs evaluate
inside the kernel. -/
def strTrim (s : String) : String :=
  ⟨((s.data.dropWhile Char.isWhitespace).reverse.dropWhile Char.isWhitespace).reverse⟩

/-- The bidirectional pair predicate of the history query for a direct
conversation (src/src/types.ts:170):
`or(and(sender_id.eq.U,receiver_id.eq.T),and(sender_id.eq.T,receiver_id.eq.U))`
with `U` the observer and `T` the chat partner. -/
def directHistoryPred (uid targetId : String) (m : Message) : Bool :=
  (m.sender_id == uid && m.receiver_id == some targetId) ||
  (m.sender_id == targetId && m.receiver_id == some uid)

/-- The client-side filter applied by the per-conversation subscription
callback for a direct chat (src/src/types.ts:196-202): keep the event iff
observer and partner are its two endpoints. -/
def directFeedKeep (u : ChatUser) (a : Chat) (m : Message) : Bool :=
  (m.sender_id == u.id && m.receiver_id == some a.id) ||
  (m.sender_id == a.id && m.receiver_id == some u.id)

/-- `supabase.from('users')...eq('id', newMessage.sender_id).single()`
(src/src/types.ts:205): point lookup of the sender's profile. -/
def lookupUser (users : List ChatUser) (uid : String) : Option ChatUser :=
  users.find? (fun x => x.id == uid)

/-- The per-conversation subscription callback (src/src/types.ts:192-207):
for a direct chat, drop events failing the bidirectional filter; then attach
the sender profile and append.  For a group chat the server-side filter
`group_id=eq.<id>` (src/src/types.ts:188-190) already selected the event, so
the callback appends unconditionally. -/
def liveAppend (users : List ChatUser) (currentUser : ChatUser) (activeChat : Chat)
    (msgs : List Message) (m : Message) : List Message :=
  if activeChat.type = ChatType.user ∧ directFeedKeep currentUser activeChat m = false
  then msgs
  else msgs ++ [{ m with sender := lookupUser users m.sender_id }]

/-- `fetchMessages` (src/src/types.ts:166-177): history query for the active
chat — the bidirectional pair predicate for a direct chat, `group_id = id`
for a group chat — ordered by `created_at` ascending.  The store list is in
insertion order and `mergeSort` is stable, so ties are broken by insertion
order as the data model prescribes. -/
def fetchMessages (store : List Message) (uid : String) (a : Chat) : List Message :=
  (store.filter (fun m =>
      if a.type = ChatType.user then directHistoryPred uid a.id m
      else m.group_id == some a.id)).mergeSort
    (fun x y => x.created_at ≤ y.created_at)

/-- The `messageData` object assembled by `sendMessage`
(src/src/types.ts:263-272) before the insert: no id or timestamp yet,
those are assigned by the database. -/
structure MessageDraft where
  sender_id : String
  content : String
  receiver_id : Option String := none
  group_id : Option String := none
deriving DecidableEq, Repr

/-- Builds `messageData` for the given sender and active chat
(src/src/types.ts:263-272): content is trimmed, and exactly one of
`receiver_id` / `group_id` is set according to the chat's type. -/
def buildMessageData (u : ChatUser) (a : Chat) (content : String) : MessageDraft :=
  { sender_id := u.id
    content := strTrim content
    receiver_id := if a.type = ChatType.user then some a.id else none
    group_id := if a.type = ChatType.group then some a.id else none }

/-- The database insert of a draft: the store appends a row whose `id` and
`created_at` are assigned by the database (`gen_random_uuid()` / `now()`,
src/src/types.ts:672-678). -/
def persist (d : MessageDraft) (id : String) (createdAt : Nat) : Message :=
  { id := id
    sender_id := d.sender_id
    receiver_id := d.receiver_id
    group_id := d.group_id
    content := d.content
    created_at := createdAt }

/-- The client session state touched by `sendMessage`. -/
structure Session where
  currentUser : Option ChatUser
  activeChat : Option Chat
  unreadCounts : UnreadCounts
  messages : List Message
  newMessage : String

/-- `sendMessage` (src/src/types.ts:259-280): a guarded no-op when the
composed content trims to empty or there is no current user or no active
chat; otherwise it clears the compose field and issues exactly one insert of
the assembled draft.  The optional second component is the insert issued
against the store. -/
def sendMessage (s : Session) : Session × Option MessageDraft :=
  match s.currentUser, s.activeChat with
  | some u, some a =>
    if strTrim s.newMessage = "" then (s, none)
    else ({ s with newMessage := "" }, some (buildMessageData u a s.newMessage))
  | _, _ => (s, none)

/-- Result of `handleLogin` (src/src/types.ts:216-251).  `currentUser` is
the user set by this call (`none`: `setCurrentUser` was never called, the
prior session state is untouched); `usersTable` is the resulting `users`
table; `errorSurfaced` records the `alert` in the catch block. -/
structure LoginResult where
  currentUser : Option ChatUser
  usersTable : List ChatUser
  errorSurfaced : Bool
deriving DecidableEq, Repr

/-- `handleLogin` (src/src/types.ts:216-251): look up the trimmed username;
an existing row becomes the current user with no insert; otherwise attempt
creation, whose outcome the external store decides (`insertResult`: the
fresh row on success, `none` on failure, e.g. a uniqueness race).  A failed
creation is surfaced and sets no user; there is no retry — the single
`insertResult` is consulted once. -/
def handleLogin (users : List ChatUser) (input : String)
    (insertResult : Option ChatUser) : LoginResult :=
  if strTrim input = "" then ⟨none, users, false⟩
  else
    match users.find? (fun x => x.username == strTrim input) with
    | some existing => ⟨some existing, users, false⟩
    | none =>
      match insertResult with
      | some newUser => ⟨some newUser, users ++ [newUser], false⟩
      | none => ⟨none, users, true⟩

/-- Concrete observer for the C1 scenario: user B. -/
def userB : ChatUser := { id := "B", username := "bobby" }

/-- A direct message from user A to user B with the given row id. -/
def msgAtoB (i : String) : Message :=
  { id := i, sender_id := "A", receiver_id := some "B", content := "hi", created_at := 0 }

/-- The direct conversation with user C, viewed by B in the C1 scenario. -/
def chatC : Chat := { type := ChatType.user, id := "C" }

/-- A group message authored by user A, used against claim C3. -/
def mGroupFromA : Message :=
  { id := "m1", sender_id := "A", group_id := some "G", content := "hi", created_at := 0 }

/-- The global handler written as a single conditional: the count map gains
exactly one increment at the derived conversation id precisely when the
sender is not the observer, the message is relevant, and the derived id is
not the active conversation. -/
theorem onMessageObserved_some_eq (u : ChatUser) (a : Chat) (counts : UnreadCounts)
    (m : Message) :
    onMessageObserved u (some a) counts m =
      if m.sender_id ≠ u.id ∧ (m.group_id.isSome ∨ m.receiver_id = some u.id) ∧ derivedId m ≠ a.id
      then incrementCount counts (derivedId m)
      else counts := by
  unfold onMessageObserved isRelevant
  by_cases h1 : m.sender_id = u.id
  · simp [h1]
  · by_cases h2 : a.id = derivedId m
    · simp [h1, h2.symm]
    · simp [h1, h2, Ne.symm h2]

/-- One step of the global handler never changes the entry stored for the
active conversation. -/
theorem onMessageObserved_active_id (u : ChatUser) (a : Chat) (k : UnreadCounts)
    (m : Message) :
    onMessageObserved u (some a) k m a.id = k a.id := by
  unfold onMessageObserved
  by_cases h1 : m.sender_id = u.id
  · simp [h1]
  · by_cases h2 : a.id = derivedId m
    · simp [h1, h2]
    · by_cases h3 : isRelevant u m
      · simp [h1, h2, h3, incrementCount]
      · simp [h1, h2, h3]

/-- Any sequence of observed messages leaves the active conversation's
stored count untouched. -/
theorem observeAll_active_id (u : ChatUser) (a : Chat) (k : UnreadCounts)
    (msgs : List Message) :
    observeAll u (some a) k msgs a.id = k a.id := by
  induction msgs generalizing k with
  | nil => rfl
  | cons m rest ih =>
      show observeAll u (some a) (onMessageObserved u (some a) k m) rest a.id = k a.id
      rw [ih, onMessageObserved_active_id]

/-- C1: the global unread handler increments the count for the derived
conversation id by exactly 1 (creating the entry if absent) iff the message
is from someone else, relevant, and filed under a conversation other than
the active one; in every other case the map is unchanged.  In particular,
after A sends 3 direct messages to B while B views conversation C, B's
count for A is 3 and B's count for C is still 0. -/
theorem unread_increment_characterization :
    (∀ (u : ChatUser) (a : Chat) (counts : UnreadCounts) (m : Message),
        onMessageObserved u (some a) counts m =
          if m.sender_id ≠ u.id ∧ (m.group_id.isSome ∨ m.receiver_id = some u.id) ∧
              derivedId m ≠ a.id
          then incrementCount counts (derivedId m)
          else counts) ∧
    (observeAll userB (some chatC) (onConversationActivated emptyCounts "C")
        [msgAtoB "1", msgAtoB "2", msgAtoB "3"]) "A" = some 3 ∧
    (observeAll userB (some chatC) (onConversationActivated emptyCounts "C")
        [msgAtoB "1", msgAtoB "2", msgAtoB "3"]) "C" = some 0 :=
  ⟨onMessageObserved_some_eq, by decide, by decide⟩

/-- C2: the instant a conversation becomes active its stored unread count is
0, and it stays 0 under any sequence of observed messages for as long as it
remains active. -/
theorem active_conversation_count_zero (u : ChatUser) (t : ChatType) (c : String)
    (counts : UnreadCounts) (msgs : List Message) :
    (onConversationActivated counts c) c = some 0 ∧
    observeAll u (some (Chat.mk t c)) (onConversationActivated counts c) msgs c
      = some 0 := by
  refine ⟨by simp [onConversationActivated], ?_⟩
  have h := observeAll_active_id u (Chat.mk t c) (onConversationActivated counts c) msgs
  simpa [onConversationActivated] using h

/-- C3 counterexample: it is false that the relevance rule applies no sender
exclusion and that self-notification is suppressed only by the
active-conversation no-op.  A, the author of a group message to G, observes
it while viewing a different conversation X: the claim then demands an
increment for G, but the handler's dedicated sender check leaves the map
unchanged. -/
theorem group_suppression_only_via_active_false :
    ¬ ((∀ (u : ChatUser) (m : Message), m.group_id.isSome = true → isRelevant u m = true) ∧
       (∀ (u : ChatUser) (a : Chat) (counts : UnreadCounts) (m : Message),
          m.group_id.isSome = true →
          onMessageObserved u (some a) counts m =
            if derivedId m = a.id then counts
            else incrementCount counts (derivedId m))) := by
  intro h
  have h2 := h.2 ⟨"A", "alice", none⟩ ⟨ChatType.user, "X"⟩ emptyCounts mGroupFromA rfl
  have h3 := congrFun h2 "G"
  simp [onMessageObserved, emptyCounts, incrementCount, derivedId, mGroupFromA] at h3

/-- C3 (amended): the relevance expression itself is true for group messages
for every observer, the sender included; but self-authored messages are
excluded by a dedicated sender-equality check placed before the relevance
test, which suppresses self-notification for every conversation, active or
not — not only via the active-conversation no-op. -/
theorem group_relevance_and_sender_check :
    (∀ (u : ChatUser) (m : Message) (g : String),
        isRelevant u { m with group_id := some g } = true) ∧
    (∀ (uname : String) (ls : Option String) (a : Option Chat) (counts : UnreadCounts)
        (m : Message),
        onMessageObserved ⟨m.sender_id, uname, ls⟩ a counts m = counts) := by
  constructor
  · intro u m g
    simp [isRelevant]
  · intro uname ls a counts m
    unfold onMessageObserved
    simp

/-- C4: for a direct message the conversation id derived by the receiving
observer is the sender's id, while the sender files the same exchange under
the active chat's id, which is exactly the receiver id the draft carries —
both sides use the other party's id.  Stability across reconnects holds
because the derivation is a pure function of the message row. -/
theorem direct_conversation_id_symmetry :
    (∀ (i s : String) (r : Option String) (c : String) (ts : Nat) (sn : Option ChatUser),
        derivedId ⟨i, s, r, none, c, ts, sn⟩ = s) ∧
    (∀ (u : ChatUser) (t content : String),
        (buildMessageData u ⟨ChatType.user, t⟩ content).receiver_id = some t ∧
        (buildMessageData u ⟨ChatType.user, t⟩ content).group_id = none) := by
  constructor
  · intro i s r c ts sn
    rfl
  · intro u t content
    constructor <;> simp [buildMessageData]

/-- C5: for an active direct conversation with partner t, the subscription
callback appends an incoming event iff it satisfies the same bidirectional
predicate as the history query, and the appended copy carries the sender
profile resolved from the users table. -/
theorem direct_live_filter_matches_history (users : List ChatUser) (u : ChatUser)
    (t : String) (msgs : List Message) (m : Message) :
    liveAppend users u ⟨ChatType.user, t⟩ msgs m =
      if directHistoryPred u.id t m
      then msgs ++ [{ m with sender := lookupUser users m.sender_id }]
      else msgs := by
  unfold liveAppend
  by_cases h : directHistoryPred u.id t m
  · have hk : directFeedKeep u ⟨ChatType.user, t⟩ m = true := h
    simp [hk, h]
  · have hk : directFeedKeep u ⟨ChatType.user, t⟩ m = false := by
      simpa using h
    simp [hk, h]

/-- C6: inserting a message via sendMessage and re-fetching that
conversation's history returns exactly the store's messages matching the
conversation predicate â the bidirectional pair predicate for a direct
chat, the group-id equality for a group chat â in insertion order (the
timestamp order the database assigns), with the new message appearing
exactly once, and the result ordered by creation time. -/
theorem send_fetch_roundtrip (store : List Message) (u : ChatUser) (a : Chat)
    (content msgId : String) (ts : Nat)
    (hsorted : (store ++ [persist (buildMessageData u a content) msgId ts]).Pairwise
        (fun x y => x.created_at ≤ y.created_at))
    (hfresh : ∀ m ∈ store, m.id ≠ msgId) :
    fetchMessages (store ++ [persist (buildMessageData u a content) msgId ts]) u.id a
      = (store ++ [persist (buildMessageData u a content) msgId ts]).filter
          (fun m => if a.type = ChatType.user then directHistoryPred u.id a.id m
                    else m.group_id == some a.id) ∧
    (fetchMessages (store ++ [persist (buildMessageData u a content) msgId ts]) u.id
        a).countP (fun m => m.id == msgId) = 1 ∧
    (fetchMessages (store ++ [persist (buildMessageData u a content) msgId ts]) u.id
        a).Pairwise (fun x y => x.created_at ≤ y.created_at) := by
  have hfilter : fetchMessages
      (store ++ [persist (buildMessageData u a content) msgId ts]) u.id a
      = (store ++ [persist (buildMessageData u a content) msgId ts]).filter
          (fun m => if a.type = ChatType.user then directHistoryPred u.id a.id m
                    else m.group_id == some a.id) := by
    unfold fetchMessages
    apply List.mergeSort_of_sorted
    simpa using hsorted.filter _
  refine ⟨hfilter, ?_, ?_⟩
  · rw [hfilter, List.countP_filter, List.countP_append]
    have h0 : store.countP (fun x => (x.id == msgId) &&
        (if a.type = ChatType.user then directHistoryPred u.id a.id x
         else x.group_id == some a.id)) = 0 := by
      apply List.countP_eq_zero.mpr
      intro x hx
      simp [hfresh x hx]
    have h1 : [persist (buildMessageData u a content) msgId ts].countP
        (fun x => (x.id == msgId) &&
          (if a.type = ChatType.user then directHistoryPred u.id a.id x
           else x.group_id == some a.id)) = 1 := by
      obtain ⟨ty, aid⟩ := a
      cases ty <;> simp [persist, buildMessageData, directHistoryPred]
    omega
  · rw [hfilter]
    exact hsorted.filter _

/-- Witness for C6 at a concrete input: one direct message "hi" from user U
to partner T in an empty store. -/
theorem send_fetch_roundtrip_witness :
    ((([] : List Message) ++
        [persist (buildMessageData ⟨"U", "u", none⟩ ⟨ChatType.user, "T"⟩ "hi") "m1" 0]).Pairwise
        (fun x y => x.created_at ≤ y.created_at)) ∧
    (∀ m ∈ ([] : List Message), m.id ≠ "m1") ∧
    (fetchMessages (([] : List Message) ++
        [persist (buildMessageData ⟨"U", "u", none⟩ ⟨ChatType.user, "T"⟩ "hi") "m1" 0])
        "U" ⟨ChatType.user, "T"⟩
      = (([] : List Message) ++
          [persist (buildMessageData ⟨"U", "u", none⟩ ⟨ChatType.user, "T"⟩ "hi") "m1" 0]).filter
          (fun m => if (⟨ChatType.user, "T"⟩ : Chat).type = ChatType.user
                    then directHistoryPred "U" "T" m
                    else m.group_id == some "T") ∧
    (fetchMessages (([] : List Message) ++
        [persist (buildMessageData ⟨"U", "u", none⟩ ⟨ChatType.user, "T"⟩ "hi") "m1" 0])
        "U" ⟨ChatType.user, "T"⟩).countP (fun m => m.id == "m1") = 1 ∧
    (fetchMessages (([] : List Message) ++
        [persist (buildMessageData ⟨"U", "u", none⟩ ⟨ChatType.user, "T"⟩ "hi") "m1" 0])
        "U" ⟨ChatType.user, "T"⟩).Pairwise
        (fun x y => x.created_at ≤ y.created_at)) :=
  ⟨by simp, by simp,
    send_fetch_roundtrip [] ⟨"U", "u", none⟩ ⟨ChatType.user, "T"⟩ "hi" "m1" 0
      (by simp) (by simp)⟩

/-- C7: activation unconditionally zeroes the entry for the activated
conversation — creating it when absent — and doing it twice in a row leaves
the count at 0 both times. -/
theorem activation_idempotent (counts : UnreadCounts) (c : String) :
    (onConversationActivated counts c) c = some 0 ∧
    (onConversationActivated (onConversationActivated counts c) c) c = some 0 := by
  constructor <;> simp [onConversationActivated]

/-- C8: login resolves an existing username to that user without inserting;
with no existing row it inserts, and the fresh row becomes the current
user; when the lookup misses and the creation also fails, the failure is
surfaced, no user is set, the table is unchanged, and no retry happens (the
single creation outcome is consulted once). -/
theorem login_lookup_or_create (users : List ChatUser) (input : String)
    (insertResult : Option ChatUser) (hne : strTrim input ≠ "") :
    (∀ u, users.find? (fun x => x.username == strTrim input) = some u →
        handleLogin users input insertResult = ⟨some u, users, false⟩) ∧
    (users.find? (fun x => x.username == strTrim input) = none →
        (∀ f, insertResult = some f →
            handleLogin users input insertResult = ⟨some f, users ++ [f], false⟩) ∧
        (insertResult = none →
            handleLogin users input insertResult = ⟨none, users, true⟩)) := by
  unfold handleLogin
  rw [if_neg hne]
  constructor
  · intro u hu
    rw [hu]
  · intro hnone
    rw [hnone]
    exact ⟨fun f hf => by rw [hf], fun h0 => by rw [h0]⟩

/-- Witness for C8 at a concrete input: logging in as the already-present
username bob finds the existing row and inserts nothing. -/
theorem login_lookup_or_create_witness :
    (strTrim "bob" ≠ "") ∧
    handleLogin [⟨"1", "bob", none⟩] "bob" none
      = ⟨some ⟨"1", "bob", none⟩, [⟨"1", "bob", none⟩], false⟩ :=
  ⟨by decide, (login_lookup_or_create [⟨"1", "bob", none⟩] "bob" none (by decide)).1
      ⟨"1", "bob", none⟩ (by decide)⟩

/-- C9: sendMessage is a guarded no-op — empty trimmed content, missing
current user or missing active chat all leave the whole session unchanged
and issue no insert; on the send path the compose field is cleared, one
draft is issued whose content is the trimmed input, and exactly one of
receiver_id / group_id is set according to the active chat's type. -/
theorem sendMessage_guard_and_shape (s : Session) :
    (strTrim s.newMessage = "" ∨ s.currentUser = none ∨ s.activeChat = none →
        sendMessage s = (s, none)) ∧
    (∀ u a, s.currentUser = some u → s.activeChat = some a → strTrim s.newMessage ≠ "" →
        (sendMessage s).1 = { s with newMessage := "" } ∧
        (sendMessage s).2 = some (buildMessageData u a s.newMessage) ∧
        (buildMessageData u a s.newMessage).content = strTrim s.newMessage ∧
        (a.type = ChatType.user →
            (buildMessageData u a s.newMessage).receiver_id = some a.id ∧
            (buildMessageData u a s.newMessage).group_id = none) ∧
        (a.type = ChatType.group →
            (buildMessageData u a s.newMessage).group_id = some a.id ∧
            (buildMessageData u a s.newMessage).receiver_id = none)) := by
  constructor
  · intro h
    rcases h with h | h | h <;>
      cases hu : s.currentUser <;> cases ha : s.activeChat <;> simp_all [sendMessage]
  · intro u a hu ha hne
    unfold sendMessage
    rw [hu, ha]
    dsimp only
    rw [if_neg hne]
    refine ⟨rfl, rfl, rfl, ?_, ?_⟩
    · intro ht
      simp [buildMessageData, ht]
    · intro ht
      simp [buildMessageData, ht]

/-- Witness for C9 at concrete inputs: a session with no user and empty
compose field is a no-op, and a logged-in session with an active direct
chat sends a draft with trimmed content and only receiver_id set. -/
theorem sendMessage_guard_and_shape_witness :
    (strTrim "" = "" ∨ (Session.mk none none emptyCounts [] "").currentUser = none ∨
        (Session.mk none none emptyCounts [] "").activeChat = none) ∧
    sendMessage (Session.mk none none emptyCounts [] "") = (Session.mk none none emptyCounts [] "", none) ∧
    ((Session.mk (some ⟨"U", "u", none⟩) (some ⟨ChatType.user, "T"⟩) emptyCounts [] " hi ").currentUser
        = some ⟨"U", "u", none⟩) ∧
    (strTrim " hi " ≠ "") ∧
    ((sendMessage (Session.mk (some ⟨"U", "u", none⟩) (some ⟨ChatType.user, "T"⟩) emptyCounts [] " hi ")).1
        = { Session.mk (some ⟨"U", "u", none⟩) (some ⟨ChatType.user, "T"⟩) emptyCounts [] " hi " with
            newMessage := "" } ∧
      (sendMessage (Session.mk (some ⟨"U", "u", none⟩) (some ⟨ChatType.user, "T"⟩) emptyCounts [] " hi ")).2
        = some (buildMessageData ⟨"U", "u", none⟩ ⟨ChatType.user, "T"⟩ " hi ") ∧
      (buildMessageData ⟨"U", "u", none⟩ ⟨ChatType.user, "T"⟩ " hi ").content = strTrim " hi " ∧
      ((⟨ChatType.user, "T"⟩ : Chat).type = ChatType.user →
          (buildMessageData ⟨"U", "u", none⟩ ⟨ChatType.user, "T"⟩ " hi ").receiver_id = some "T" ∧
          (buildMessageData ⟨"U", "u", none⟩ ⟨ChatType.user, "T"⟩ " hi ").group_id = none) ∧
      ((⟨ChatType.user, "T"⟩ : Chat).type = ChatType.group →
          (buildMessageData ⟨"U", "u", none⟩ ⟨ChatType.user, "T"⟩ " hi ").group_id = some "T" ∧
          (buildMessageData ⟨"U", "u", none⟩ ⟨ChatType.user, "T"⟩ " hi ").receiver_id = none)) :=
  ⟨Or.inr (Or.inl rfl),
    (sendMessage_guard_and_shape (Session.mk none none emptyCounts [] "")).1 (Or.inr (Or.inl rfl)),
    rfl, by decide,
    (sendMessage_guard_and_shape
        (Session.mk (some ⟨"U", "u", none⟩) (some ⟨ChatType.user, "T"⟩) emptyCounts [] " hi ")).2
      ⟨"U", "u", none⟩ ⟨ChatType.user, "T"⟩ rfl rfl (by decide)⟩

/-- C10: the active-conversation suppression compares only the conversation
id — a relevant message whose derived id equals the active chat's id is
suppressed whatever the active chat's type is, and more generally the
handler's behaviour never depends on that type. -/
theorem active_suppression_ignores_type (u : ChatUser) (counts : UnreadCounts)
    (m : Message) (t : ChatType) :
    onMessageObserved u (some (Chat.mk t (derivedId m))) counts m = counts ∧
    ∀ (t1 t2 : ChatType) (i : String),
      onMessageObserved u (some (Chat.mk t1 i)) counts m
        = onMessageObserved u (some (Chat.mk t2 i)) counts m := by
  constructor
  · unfold onMessageObserved
    by_cases h1 : m.sender_id = u.id <;> simp [h1]
  · intro t1 t2 i
    rfl
